import Mathlib

/-!
Verification of the LASERLINK core (src/core/core.py, src/core/core_serial.py,
src/core/__init__.py) via a shallow embedding.

Strings are modelled as Lean `String` (lists of characters); Python `str.upper()`
/ `str.lower()` agree with `Char.toUpper` / `Char.toLower` on the ASCII range used
by this line-oriented serial protocol.  Timestamps are modelled as `Nat` ticks.
External I/O (serial reads/writes, `re.compile`, exceptions) is made explicit:
each tick receives an environment describing what the external calls returned,
and fallible operations return `Except`.
-/

-- ===== Python-style string primitives =====

/-- Whitespace characters stripped by Python `str.strip()` (ASCII range). -/
def isPySpace (c : Char) : Bool :=
  c == ' ' || c == '\t' || c == '\n' || c == '\r' || c == '\x0b' || c == '\x0c'

/-- Python `str.upper()` (ASCII). -/
def pyUpper (s : String) : String := String.mk (s.data.map Char.toUpper)

/-- Python `str.lower()` (ASCII). -/
def pyLower (s : String) : String := String.mk (s.data.map Char.toLower)

/-- Does the list start with the given pattern? (second argument is the pattern) -/
def startsWithL : List Char → List Char → Bool
  | _, [] => true
  | [], _ :: _ => false
  | c :: cs, p :: ps => p == c && startsWithL cs ps

/-- Python `pat in s` : does `pat` occur contiguously in the list? -/
def containsL (pat : List Char) : List Char → Bool
  | [] => pat.isEmpty
  | c :: cs => startsWithL (c :: cs) pat || containsL pat cs

/-- Python `pre in s` on strings. -/
def strContains (s pat : String) : Bool := containsL pat.data s.data

/-- Python `s.startswith(pre)`. -/
def strStarts (s pre : String) : Bool := startsWithL s.data pre.data

/-- Python `s.endswith(suf)`. -/
def strEnds (s suf : String) : Bool := startsWithL s.data.reverse suf.data.reverse

/-- Python `s.strip()`. -/
def pyStrip (s : String) : String :=
  String.mk (((s.data.dropWhile isPySpace).reverse.dropWhile isPySpace).reverse)

/-- Python `s.rstrip()`. -/
def pyRstrip (s : String) : String :=
  String.mk ((s.data.reverse.dropWhile isPySpace).reverse)

/-- Python `s.rstrip("\r\n")`. -/
def rstripCRLF (s : String) : String :=
  String.mk ((s.data.reverse.dropWhile (fun c => c == '\r' || c == '\n')).reverse)

/-- Python `s[n:]` on strings. -/
def strDrop (s : String) (n : Nat) : String := String.mk (s.data.drop n)

/-- Python falsiness test for strings. -/
def strIsEmpty (s : String) : Bool := s.data.isEmpty

-- ===== Minimal regex fragment for the hard-coded hold pattern =====

/-- One token of a regex made only of literal characters and character
classes, the fragment needed for `PASSED=[01]`. -/
inductive RTok where
  | lit : Char → RTok
  | cls : List Char → RTok

/-- Does a single token match a character, IGNORECASE (as `re.IGNORECASE`)? -/
def tokMatch : RTok → Char → Bool
  | .lit a, c => Char.toUpper a == Char.toUpper c
  | .cls as, c => as.any (fun a => Char.toUpper a == Char.toUpper c)

/-- Match the whole token list at the beginning of the text. -/
def matchHere : List RTok → List Char → Bool
  | [], _ => true
  | _ :: _, [] => false
  | t :: ts, c :: cs => tokMatch t c && matchHere ts cs

/-- `re.search`: match at any starting position. -/
def rsearch (p : List RTok) : List Char → Bool
  | [] => matchHere p []
  | c :: cs => matchHere p (c :: cs) || rsearch p cs

/-- `LaserSfcBridge.HOLD_RX = re.compile(r"PASSED=[01]", re.IGNORECASE)`. -/
def HOLD_RX : List RTok :=
  [.lit 'P', .lit 'A', .lit 'S', .lit 'S', .lit 'E', .lit 'D', .lit '=',
   .cls ['0', '1']]

/-- `LaserSfcBridge._is_hold_point`: `bool(HOLD_RX.search(sfc_resp or ""))`. -/
def is_hold_point (sfcResp : String) : Bool := rsearch HOLD_RX sfcResp.data

-- ===== Break-rule engine (src/core/__init__.py) =====

/-- `BreakRule` dataclass.  A compiled regex object is modelled as its
matcher function (`re.Pattern.search` returning a truthy match). -/
structure BreakRule where
  mode : String
  pattern : String
  regex : Option (String → Bool) := none

/-- `_split_list` / the local `split_list` in `load_readline_break_rules`:
split on commas/newlines, strip, drop blanks and `#`/`;` comments. -/
def _split_list (s : String) : List String :=
  ((s.data.splitOnP (fun c => c == ',' || c == '\n')).map
      (fun l => pyStrip (String.mk l))).filter
    (fun t => !(strIsEmpty t) && !(strStarts t ("#")) && !(strStarts t (";")))

/-- `_parse_rule`, parameterized by the regex compiler (`re.compile` with
IGNORECASE); compilation failure is `none` and makes the token dropped. -/
def _parse_rule (compile : String → Option (String → Bool)) (token : String) :
    Option BreakRule :=
  let raw := pyStrip token
  let up := pyUpper raw
  if strStarts up ("MATCHREGEX:") || strStarts up ("REGEX:") then
    let pat := if strStarts up ("MATCHREGEX:") then pyStrip (strDrop raw 11)
               else pyStrip (strDrop raw 6)
    if strIsEmpty pat then none
    else
      match compile pat with
      | some rx => some { mode := "REGEX", pattern := pat, regex := some rx }
      | none => none
  else if strStarts up ("END:") then
    some { mode := "END", pattern := pyStrip (strDrop up 4) }
  else if strStarts up ("IN:") then
    some { mode := "IN", pattern := pyStrip (strDrop up 3) }
  else
    some { mode := "IN", pattern := up }

/-- `_rule_id`. -/
def _rule_id (r : BreakRule) : String × String := (r.mode, r.pattern)

/-- The body of `load_readline_break_rules` once the two raw strings are
split into token lists: parse both groups, drop `ALWAYS_LAST` duplicates
from the priority group, concatenate. -/
def load_rules_from (compile : String → Option (String → Bool))
    (tokens always : List String) : List BreakRule :=
  let tks := tokens.filterMap (_parse_rule compile)
  let al := always.filterMap (_parse_rule compile)
  let ids := al.map _rule_id
  tks.filter (fun r => !(ids.contains (_rule_id r))) ++ al

/-- `load_readline_break_rules` on the two configured strings. -/
def load_readline_break_rules (compile : String → Option (String → Bool))
    (tokensRaw alwaysRaw : String) : List BreakRule :=
  load_rules_from compile (_split_list tokensRaw) (_split_list alwaysRaw)

/-- One iteration of the `should_break` loop, with `up`/`up_stripped`
already computed. -/
def ruleHit (up upStripped orig : String) (r : BreakRule) : Bool :=
  if r.mode == "REGEX" then
    match r.regex with
    | some rx => rx orig
    | none => false
  else if r.mode == "END" then
    strEnds up r.pattern || strEnds upStripped r.pattern
  else if r.mode == "IN" then
    strContains up r.pattern
  else
    match r.regex with
    | some rx => rx orig
    | none => false

/-- `should_break(response, rules)`. -/
def should_break (response : String) (rules : List BreakRule) : Bool :=
  let up := pyUpper response
  let upStripped := pyRstrip up
  rules.any (ruleHit up upStripped response)

/-- Whether a single rule matches a response (spec-level view of one loop
iteration of `should_break`). -/
def matchesOne (response : String) (r : BreakRule) : Bool :=
  ruleHit (pyUpper response) (pyRstrip (pyUpper response)) response r

-- ===== Status classifier (infer_status) =====

/-- `infer_status` from `src/core/core.py`; `None` (Python) is `none`. -/
def infer_status (text : String) : Option String :=
  let up := pyUpper text
  if strContains up ("PASSED=0") || strContains up ("FAIL") || strContains up ("ERRO") then
    some ("FAIL")
  else if strContains up ("PASSED=1") || strContains up (" PASS") || strEnds up ("PASS") then
    some ("PASS")
  else
    none

/-- Spec-side FAIL condition: upper-cased text contains `PASSED=0`, `FAIL` or `ERRO`. -/
def failMarker (t : String) : Bool :=
  strContains (pyUpper t) ("PASSED=0") || strContains (pyUpper t) ("FAIL") ||
    strContains (pyUpper t) ("ERRO")

/-- Spec-side PASS condition: upper-cased text contains `PASSED=1`, contains
a space followed by `PASS`, or ends with `PASS`. -/
def passMarker (t : String) : Bool :=
  strContains (pyUpper t) ("PASSED=1") || strContains (pyUpper t) (" PASS") ||
    strEnds (pyUpper t) ("PASS")

-- ===== Frame assembler =====

/-- `FrameAssembler` state: accumulated buffer and optional first-push
timestamp. -/
structure FrameAssembler where
  buf : String
  t0 : Option Nat
deriving Repr, DecidableEq

/-- `FrameAssembler.push(chunk)`; `now` is the `time.time()` reading taken
when `t0` is first recorded.  Returns the produced frame (if any) and the
updated assembler. -/
def FrameAssembler.push (rules : List BreakRule) (a : FrameAssembler)
    (now : Nat) (chunk : String) : Option String × FrameAssembler :=
  if strIsEmpty chunk then (none, a)
  else
    let a1 := if a.t0.isNone then { a with t0 := some now } else a
    let buf := a1.buf ++ chunk
    if should_break buf rules then (some (pyStrip buf), ⟨"", none⟩)
    else (none, { a1 with buf := buf })

-- ===== LaserSfcBridge (src/core/core.py) =====

/-- Constructor options of `LaserSfcBridge` relevant to `step()`. -/
structure BridgeCfg where
  breakOnReload : Bool
deriving Repr, DecidableEq

/-- The mutable fields of `LaserSfcBridge` touched by `step()`.  The open
serial handle `ser_laser` is represented by the port it was opened with
(`none` = closed / `ser_laser is None`). -/
structure BState where
  mode : String
  lastError : String
  lastStatus : String
  lastLaserReq : String
  lastSfcResp : String
  chainActive : Bool
  serLaserPort : Option String
  curLaserPort : String
  asm : FrameAssembler
deriving Repr, DecidableEq

/-- What the external world returned to one `step()` call: the config
snapshot, the laser `readline()` chunk (decoded; `""` = no bytes), the
`send_text_and_wait` outcome, and injected exceptions (`some msg` = the
corresponding call raised with that text). -/
structure TickEnv where
  reloadChanged : Bool
  comLaser : String
  openOk : Bool
  openErr : String
  rules : List BreakRule
  laserChunk : String
  now : Nat
  faultRead : Option String
  sfcOk : Bool
  sfcResp : String
  faultSfc : Option String
  faultWrite : Option String

/-- Observable outcome of one `step()`: the returned event code, the new
bridge state, the payloads written to the laser serial port, and the
`on_result(status, request, response)` invocations. -/
structure StepOut where
  event : String
  st : BState
  laserWrites : List String
  results : List (String × String × String)
deriving Repr, DecidableEq

/-- `_write_back_to_laser` payload: `text.rstrip("\r\n") + "\r\n"`. -/
def crlfPayload (text : String) : String := rstripCRLF text ++ ("\r\n")

/-- The `except Exception` handler at the end of `step()`: set mode to
`Error`, record the exception text, return `"ERROR"`.  (It does not touch
the serial handle.) -/
def raiseOut (st : BState) (e : String)
    (results : List (String × String × String)) : StepOut :=
  { event := "ERROR", st := { st with mode := "Error", lastError := e },
    laserWrites := [], results := results }

/-- Mode normalization at the top of `step()`: `Idle`/`Stopped` become
`Listening`. -/
def stNorm (st : BState) : BState :=
  if st.mode == "Idle" || st.mode == "Stopped" then { st with mode := "Listening" }
  else st

/-- `_ensure_laser_open`: returns `(ok, state)`.  `close()` sets the handle
to `none` and `cur_laser_port` to `""`; a failed open records the error and
still returns `True` (the UI sees `Error` through the getters). -/
def ensureLaserOpen (cfg : BridgeCfg) (st : BState) (env : TickEnv) :
    Bool × BState :=
  if env.reloadChanged && cfg.breakOnReload then
    (false, { st with
        mode := if st.serLaserPort.isSome then "Listening" else "Idle",
        chainActive := false, asm := ⟨"", none⟩ })
  else
    let st1 := { st with curLaserPort := env.comLaser }
    if st1.serLaserPort == some env.comLaser then (true, st1)
    else
      let st2 := { st1 with serLaserPort := none, curLaserPort := "" }
      if env.openOk then
        (true, { st2 with serLaserPort := some env.comLaser, asm := ⟨"", none⟩ })
      else
        (true, { st2 with
                   mode := "Error",
                   lastError := ("Open LASER failed: ") ++ env.openErr })

/-- The state after mode normalization and `_ensure_laser_open`. -/
def stEnsured (cfg : BridgeCfg) (st0 : BState) (env : TickEnv) : Bool × BState :=
  ensureLaserOpen cfg (stNorm st0) env

/-- The assembler push performed by `_read_laser_frame_nonblock` (rules are
refreshed from the config snapshot every tick). -/
def frameRes (cfg : BridgeCfg) (st0 : BState) (env : TickEnv) :
    Option String × FrameAssembler :=
  FrameAssembler.push env.rules (stEnsured cfg st0 env).2.asm env.now env.laserChunk

/-- State after feeding the laser chunk to the assembler. -/
def stAsm (cfg : BridgeCfg) (st0 : BState) (env : TickEnv) : BState :=
  { (stEnsured cfg st0 env).2 with asm := (frameRes cfg st0 env).2 }

/-- State right after a laser trigger frame is accepted: record the request,
clear the previous response/status, activate the chain, mode `Testing`. -/
def stTrig (cfg : BridgeCfg) (st0 : BState) (env : TickEnv) (frame : String) :
    BState :=
  { stAsm cfg st0 env with
      lastLaserReq := frame,
      lastSfcResp := "",
      lastStatus := "",
      chainActive := true,
      mode := "Testing" }

/-- The `"IDLE"` return: mode reflects whether a chain is active. -/
def idleOut (st : BState) : StepOut :=
  ⟨"IDLE", { st with mode := if st.chainActive then "Testing" else "Listening" },
   [], []⟩

/-- The part of `step()` after a laser frame was obtained: the blocking SFC
transaction, status classification, hold-point decision and write-back. -/
def sfcPhase (env : TickEnv) (st : BState) (frame : String) : StepOut :=
  match env.faultSfc with
  | some e => raiseOut st e []
  | none =>
    if !env.sfcOk then
      let status := if strContains (pyLower env.sfcResp) ("timeout") then "TIMEOUT"
                    else "SFC_ERROR"
      ⟨if status == "TIMEOUT" then "SFC_TIMEOUT" else "SFC_ERROR",
       { st with
           lastStatus := status,
           lastSfcResp := env.sfcResp,
           chainActive := false,
           mode := "Listening" },
       [], [(status, frame, env.sfcResp)]⟩
    else
      let status := (infer_status env.sfcResp).getD ("UNKNOWN")
      let stR := { st with lastSfcResp := env.sfcResp, lastStatus := status }
      if is_hold_point env.sfcResp then
        ⟨"HOLD", { stR with chainActive := false, mode := "Listening" },
         [], [(status, frame, env.sfcResp)]⟩
      else
        match env.faultWrite with
        | some e => raiseOut stR e [(status, frame, env.sfcResp)]
        | none =>
          ⟨"SFC_OK", stR, [crlfPayload env.sfcResp], [(status, frame, env.sfcResp)]⟩

/-- `LaserSfcBridge.step()`. -/
def LaserSfcBridge.step (cfg : BridgeCfg) (st0 : BState) (env : TickEnv) :
    StepOut :=
  if !(stEnsured cfg st0 env).1 && cfg.breakOnReload then
    ⟨"RELOAD_BREAK", (stEnsured cfg st0 env).2, [], []⟩
  else if (stEnsured cfg st0 env).2.mode == "Error" then
    ⟨"ERROR", (stEnsured cfg st0 env).2, [], []⟩
  else
    match (stEnsured cfg st0 env).2.serLaserPort with
    | none => idleOut (stEnsured cfg st0 env).2
    | some _ =>
      match env.faultRead with
      | some e => raiseOut (stEnsured cfg st0 env).2 e []
      | none =>
        if strIsEmpty env.laserChunk then idleOut (stEnsured cfg st0 env).2
        else
          match (frameRes cfg st0 env).1 with
          | none => idleOut (stAsm cfg st0 env)
          | some frame => sfcPhase env (stTrig cfg st0 env frame) frame

/-- Projection of the `step()` control flow: the SFC response the step
obtained from its SFC transaction, `none` when the step never reached a
successful transaction. -/
def stepSfcResponse (cfg : BridgeCfg) (st0 : BState) (env : TickEnv) :
    Option String :=
  if !(stEnsured cfg st0 env).1 && cfg.breakOnReload then none
  else if (stEnsured cfg st0 env).2.mode == "Error" then none
  else
    match (stEnsured cfg st0 env).2.serLaserPort with
    | none => none
    | some _ =>
      match env.faultRead with
      | some _ => none
      | none =>
        if strIsEmpty env.laserChunk then none
        else
          match (frameRes cfg st0 env).1 with
          | none => none
          | some _ =>
            match env.faultSfc with
            | some _ => none
            | none => if env.sfcOk then some env.sfcResp else none

/-- Projection of the `step()` control flow: the text of the exception the
tick's `try` body raised (`none` when the tick raised nothing).  The three
raise points are the laser `readline()`/decode, the SFC transaction call
escaping, and the laser write-back — reached exactly when `step()` reaches
the corresponding call. -/
def stepRaised (cfg : BridgeCfg) (st0 : BState) (env : TickEnv) :
    Option String :=
  if !(stEnsured cfg st0 env).1 && cfg.breakOnReload then none
  else if (stEnsured cfg st0 env).2.mode == "Error" then none
  else
    match (stEnsured cfg st0 env).2.serLaserPort with
    | none => none
    | some _ =>
      match env.faultRead with
      | some e => some e
      | none =>
        if strIsEmpty env.laserChunk then none
        else
          match (frameRes cfg st0 env).1 with
          | none => none
          | some _ =>
            match env.faultSfc with
            | some e => some e
            | none =>
              if env.sfcOk then
                if is_hold_point env.sfcResp then none
                else
                  match env.faultWrite with
                  | some e => some e
                  | none => none
              else none

-- ===== SFCComReader (src/core/core_serial.py) =====

/-- `RxLine` dataclass; `t` is a `perf_counter()` reading in ticks
(`_emit_line` only ever stores strictly positive readings, `0` being the
initial `_last_rx_time`). -/
structure RxLine where
  seq : Nat
  t : Nat
  text : String
deriving Repr, DecidableEq

/-- Reader-side state written only by the reader thread: the sequence
counter, the bounded line history and `_last_rx_time`. -/
structure ReaderSt where
  seq : Nat
  lines : List RxLine
  lastRx : Nat
deriving Repr, DecidableEq

/-- Fresh reader state (`_seq = 0`, empty deque, `_last_rx_time = 0.0`). -/
def readerInit : ReaderSt := ⟨0, [], 0⟩

/-- `deque(maxlen = keep)` behaviour after appends: evict from the left
down to `keep` elements. -/
def keepTrim (keep : Nat) (l : List RxLine) : List RxLine :=
  l.drop (l.length - keep)

/-- `SFCComReader._emit_line`: next sequence number, stamp `_last_rx_time`,
append to the bounded deque. -/
def _emit_line (keep : Nat) (st : ReaderSt) (s : String) (t : Nat) : ReaderSt :=
  { seq := st.seq + 1, lastRx := t,
    lines := keepTrim keep (st.lines ++ [⟨st.seq + 1, t, s⟩]) }

/-- `SFCComReader.get_lines_since(seq0)`. -/
def get_lines_since (st : ReaderSt) (seq0 : Nat) : List String :=
  (st.lines.filter (fun x => decide (seq0 < x.seq))).map RxLine.text

/-- A whole run of the reader loop: emit the given `(text, time)` lines in
order. -/
def runEmits (keep : Nat) (st : ReaderSt) (inp : List (String × Nat)) : ReaderSt :=
  inp.foldl (fun s p => _emit_line keep s p.1 p.2) st

/-- The sequence numbers assigned to each emission of a run, in order. -/
def emitTrace (keep : Nat) (st : ReaderSt) : List (String × Nat) → List Nat
  | [] => []
  | p :: ps => (st.seq + 1) :: emitTrace keep (_emit_line keep st p.1 p.2) ps

/-- `_pick_best_line` scoring. -/
def lineScore (ln : String) : Nat :=
  let up := pyUpper ln
  (if strContains up ("PASS") || strContains up ("FAIL") then 100 else 0) +
  (if strContains up ("PASSED=1") || strContains up ("PASSED=0") then 30 else 0) +
  (if strContains up ("ERRO") || strContains up ("TIMEOUT") then 50 else 0) +
  (if strStarts up ("$") then 10 else 0) +
  (min ln.data.length 120) / 20

/-- `_pick_best_line`: Python `max(lines, key=score)` keeps the first line
among those of maximal score; empty input gives `""`. -/
def _pick_best_line : List String → String
  | [] => ""
  | l :: ls => ls.foldl (fun best x => if lineScore x > lineScore best then x else best) l

/-- The wait loop of `send_and_collect`, discretized: each iteration is one
tick (`now = i`, with `t0 = 0`); `rd i` is the reader state the loop
observes at tick `i`.  The idle test mirrors
`if self._last_rx_time and (now - self._last_rx_time) >= idle_after_last_rx`:
a zero `_last_rx_time` is falsy and blocks completion.  `fuel` bounds the
unfolding; the caller passes more fuel than the timeout so the timeout
branch is always reached first. -/
def collectLoop (rd : Nat → ReaderSt) (seq0 timeout idleAfter : Nat)
    (expect : Option (String → Bool)) :
    Bool → Nat → Nat → Bool × String × List String
  | _, i, 0 =>
    let lines := get_lines_since (rd i) seq0
    (false, _pick_best_line lines, lines)
  | matched, i, fuel + 1 =>
    if timeout ≤ i then
      let lines := get_lines_since (rd i) seq0
      (false, _pick_best_line lines, lines)
    else
      let st := rd i
      let lines := get_lines_since st seq0
      let matched1 := matched ||
        (match expect with
         | some p => lines.any p
         | none => false)
      if (expect.isNone || matched1) &&
          (st.lastRx != 0 && decide (idleAfter + st.lastRx ≤ i)) then
        (true, _pick_best_line lines, lines)
      else
        collectLoop rd seq0 timeout idleAfter expect matched1 (i + 1) fuel

/-- `SFCComReader.send`: raises `RuntimeError` when the port is not ready,
then writes `cmd.rstrip("\r\n")` plus an optional CRLF (a write failure is
an injected exception).  Returns the payload written. -/
def SFCComReader.send (ready : Bool) (writeFault : Option String)
    (cmd : String) (appendCrlf : Bool) : Except String String :=
  if !ready then .error ("SFCComReader: port not ready")
  else
    match writeFault with
    | some e => .error e
    | none =>
      .ok (if appendCrlf then rstripCRLF cmd ++ ("\r\n") else rstripCRLF cmd)

/-- `SFCComReader.send_and_collect`: clear stale input
(`clear_input_buffer` swallows its own errors), snapshot `seq0`, `send`,
then run the wait loop.  Exceptions raised by `send` propagate to the
caller. -/
def send_and_collect (ready : Bool) (writeFault : Option String)
    (rd : Nat → ReaderSt) (timeout idleAfter : Nat)
    (expect : Option (String → Bool)) :
    Except String (Bool × String × List String) :=
  match SFCComReader.send ready writeFault ("CMD") true with
  | .error e => .error e
  | .ok _ =>
    .ok (collectLoop rd ((rd 0).seq) timeout idleAfter expect false 0 (timeout + 1))

/-- Is an `Except` a normal return? -/
def exceptOk : Except String (Bool × String × List String) → Bool
  | .ok _ => true
  | .error _ => false

/-- The event codes `step()` can return. -/
def stepEventCodes : List String :=
  ["IDLE", "RELOAD_BREAK", "LASER_FRAME", "SFC_OK", "SFC_TIMEOUT",
   "SFC_ERROR", "HOLD", "ERROR"]

-- ===== Derived notions and concrete scenario data used by the theorems =====

/-- Is the token a `MATCHREGEX:`/`REGEX:` token (after `_parse_rule`'s strip
and upper-casing)? -/
def isRegexToken (token : String) : Bool :=
  strStarts (pyUpper (pyStrip token)) ("MATCHREGEX:") ||
    strStarts (pyUpper (pyStrip token)) ("REGEX:")

/-- The regex body `_parse_rule` slices out of a `MATCHREGEX:`/`REGEX:`
token (the argument handed to `re.compile`). -/
def regexBody (token : String) : String :=
  let raw := pyStrip token
  let up := pyUpper raw
  if strStarts up ("MATCHREGEX:") then pyStrip (strDrop raw 11)
  else if strStarts up ("REGEX:") then pyStrip (strDrop raw 6)
  else ""

/-- A listening bridge whose laser port `COM3` is already open. -/
def stListen : BState :=
  ⟨"Listening", "", "", "", "", false, some ("COM3"), "COM3", ⟨"", none⟩⟩

/-- One tick of the spec's hold-point scenario: no config change, a laser
frame `MO1,NEEDPSN04` arrives in one chunk (the default `IN:NEEDPSN` rule
completes the frame), and the SFC transaction answers
`MO1,PF2AS04TE,PASSED=1`. -/
def envHold : TickEnv :=
  ⟨false, "COM3", true, "", [⟨"IN", "NEEDPSN", none⟩], "MO1,NEEDPSN04", 0,
   none, true, "MO1,PF2AS04TE,PASSED=1", none, none⟩

/-- Same tick, but the SFC answers a response with no `PASSED=[01]` match. -/
def envPass : TickEnv := { envHold with sfcResp := "MO1,SOME,OTHER" }

/-- Same tick as `envPass`, but the laser write-back raises. -/
def envWriteFault : TickEnv := { envPass with faultWrite := some ("boom") }

/-- Same tick as `envPass`, but the laser read raises. -/
def envReadFault : TickEnv := { envPass with faultRead := some ("readboom") }

/-- A reader that has received one line at tick 1. -/
def readerOneLine : ReaderSt := ⟨1, [⟨1, 1, "X"⟩], 1⟩

-- ===== Theorems =====

/-- C2: `infer_status` returns FAIL exactly when the upper-cased text
contains `PASSED=0`, `FAIL` or `ERRO`; otherwise PASS exactly when it
contains `PASSED=1`, a space followed by `PASS`, or ends with `PASS`;
otherwise it returns no status (UNKNOWN).  In particular the FAIL branch
takes precedence over the trailing `PASS` of
`2505004562,PF2AS04TE,PASSED=0,FAIL03PASS`. -/
theorem infer_status_precedence :
    (∀ t : String, infer_status t = some ("FAIL") ↔ failMarker t = true) ∧
    (∀ t : String, infer_status t = some ("PASS") ↔
      (failMarker t = false ∧ passMarker t = true)) ∧
    (∀ t : String, infer_status t = none ↔
      (failMarker t = false ∧ passMarker t = false)) ∧
    infer_status ("2505004562,PF2AS04TE,PASSED=0,FAIL03PASS") = some ("FAIL") := by
  refine ⟨?_, ?_, ?_, by decide⟩ <;>
  · intro t
    simp only [infer_status, failMarker, passMarker]
    cases h1 : strContains (pyUpper t) ("PASSED=0") <;>
      cases h2 : strContains (pyUpper t) ("FAIL") <;>
        cases h3 : strContains (pyUpper t) ("ERRO") <;>
          cases h4 : strContains (pyUpper t) ("PASSED=1") <;>
            cases h5 : strContains (pyUpper t) (" PASS") <;>
              cases h6 : strEnds (pyUpper t) ("PASS") <;>
                simp

/-- C7: `should_break` is the OR over the rule list of the per-rule match,
and an `END:<literal>` rule matches exactly when the upper-cased text or
its right-trimmed form ends with the literal; with the rules parsed from
`TOKENS="END:END"` and `ALWAYS_LAST="END:PASS"`, both `"hello END"` and
`"hello END   \n"` evaluate to true. -/
theorem break_rule_or_semantics :
    (∀ (rules : List BreakRule) (text : String),
        should_break text rules = rules.any (matchesOne text)) ∧
    (∀ (lit text : String) (rx : Option (String → Bool)),
        matchesOne text ⟨"END", lit, rx⟩ =
          (strEnds (pyUpper text) lit || strEnds (pyRstrip (pyUpper text)) lit)) ∧
    (∀ compile : String → Option (String → Bool),
        should_break ("hello END")
          (load_readline_break_rules compile ("END:END") ("END:PASS")) = true) ∧
    (∀ compile : String → Option (String → Bool),
        should_break ("hello END   \n")
          (load_readline_break_rules compile ("END:END") ("END:PASS")) = true) :=
  ⟨fun _ _ => rfl, fun _ _ _ => rfl, fun _ => rfl, fun _ => rfl⟩

/-- C8: `FrameAssembler.push` is a no-op on an empty chunk; otherwise it
appends the chunk, and either emits the trimmed buffer and resets (when
the rule set matches) or keeps accumulating.  Concretely, against
`END:END`, pushing `"AB"` then `"C END"` yields no frame then
`"ABC END"`, leaving an empty buffer. -/
theorem frame_assembler_push_spec :
    (∀ (rules : List BreakRule) (a : FrameAssembler) (now : Nat) (chunk : String),
        FrameAssembler.push rules a now chunk =
          if strIsEmpty chunk then (none, a)
          else if should_break (a.buf ++ chunk) rules then
            (some (pyStrip (a.buf ++ chunk)), ⟨"", none⟩)
          else (none, ⟨a.buf ++ chunk, some (a.t0.getD now)⟩)) ∧
    FrameAssembler.push ([⟨"END", "END", none⟩]) ⟨"", none⟩ 0 ("AB") =
      (none, ⟨"AB", some 0⟩) ∧
    FrameAssembler.push ([⟨"END", "END", none⟩]) ⟨"AB", some 0⟩ 1 ("C END") =
      (some ("ABC END"), ⟨"", none⟩) := by
  refine ⟨?_, by decide, by decide⟩
  intro rules a now chunk
  obtain ⟨buf, t0⟩ := a
  cases t0 <;> simp [FrameAssembler.push]

/-- One `_emit_line` preserves the reader invariants: the counter advances
by one, buffered seqs stay bounded by the counter, and the buffer stays
strictly increasing. -/
theorem emit_line_invariant (keep : Nat) (st : ReaderSt) (s : String) (t : Nat)
    (h1 : ∀ x ∈ st.lines, x.seq ≤ st.seq)
    (h2 : List.Chain' (fun a b : RxLine => a.seq < b.seq) st.lines) :
    (_emit_line keep st s t).seq = st.seq + 1 ∧
    (∀ x ∈ (_emit_line keep st s t).lines, x.seq ≤ (_emit_line keep st s t).seq) ∧
    List.Chain' (fun a b : RxLine => a.seq < b.seq) (_emit_line keep st s t).lines := by
  refine ⟨rfl, ?_, ?_⟩
  · intro x hx
    simp only [_emit_line, keepTrim] at hx ⊢
    have hx' : x ∈ st.lines ++ [⟨st.seq + 1, t, s⟩] := List.drop_subset _ _ hx
    rcases List.mem_append.1 hx' with h | h
    · exact Nat.le_succ_of_le (h1 x h)
    · simp only [List.mem_singleton] at h
      subst h
      exact Nat.le_refl _
  · simp only [_emit_line, keepTrim]
    refine List.Chain'.drop ?_ _
    refine List.chain'_append.2 ⟨h2, List.chain'_singleton _, ?_⟩
    intro x hx y hy
    simp only [List.head?_cons, Option.mem_def, Option.some.injEq] at hy
    subst hy
    obtain ⟨hne, hxl⟩ := List.mem_getLast?_eq_getLast hx
    exact Nat.lt_succ_of_le (h1 x (hxl ▸ List.getLast_mem hne))

/-- A whole reader run from a well-formed state: counter counts emissions,
the trace of assigned sequence numbers is the contiguous range above the
starting counter, buffered seqs stay bounded and strictly increasing, and
the bounded buffer never exceeds its capacity once within it. -/
theorem run_emits_spec (keep : Nat) (inp : List (String × Nat)) :
    ∀ st : ReaderSt,
      (∀ x ∈ st.lines, x.seq ≤ st.seq) →
      List.Chain' (fun a b : RxLine => a.seq < b.seq) st.lines →
      (runEmits keep st inp).seq = st.seq + inp.length ∧
      emitTrace keep st inp = List.range' (st.seq + 1) inp.length ∧
      (∀ x ∈ (runEmits keep st inp).lines, x.seq ≤ (runEmits keep st inp).seq) ∧
      List.Chain' (fun a b : RxLine => a.seq < b.seq) (runEmits keep st inp).lines ∧
      (st.lines.length ≤ keep → (runEmits keep st inp).lines.length ≤ keep) := by
  induction inp with
  | nil =>
    intro st h1 h2
    exact ⟨rfl, rfl, h1, h2, fun h => h⟩
  | cons p ps ih =>
    intro st h1 h2
    obtain ⟨e1, e2, e3⟩ := emit_line_invariant keep st p.1 p.2 h1 h2
    obtain ⟨r1, r2, r3, r4, r5⟩ := ih (_emit_line keep st p.1 p.2) e2 e3
    have hlen : (_emit_line keep st p.1 p.2).lines.length ≤ keep := by
      simp only [_emit_line, keepTrim, List.length_drop]
      omega
    refine ⟨?_, ?_, r3, r4, fun _ => r5 hlen⟩
    · show (runEmits keep (_emit_line keep st p.1 p.2) ps).seq = st.seq + (ps.length + 1)
      rw [r1, e1]
      omega
    · show (st.seq + 1) :: emitTrace keep (_emit_line keep st p.1 p.2) ps =
        List.range' (st.seq + 1) (ps.length + 1)
      rw [r2, e1, List.range'_succ]

/-- C6: over any run of the reader, the assigned sequence numbers are
exactly `1, 2, …, n` (strictly increasing, never reused, regardless of the
ring-buffer capacity and its evictions); the buffered lines carry strictly
increasing sequence numbers in arrival order, the buffer never exceeds its
capacity, and `get_lines_since seq0` is the in-order projection of exactly
the buffered lines with `seq > seq0`. -/
theorem reader_seq_monotone :
    ∀ (keep : Nat) (inp : List (String × Nat)) (seq0 : Nat),
      emitTrace keep readerInit inp = List.range' 1 inp.length ∧
      (runEmits keep readerInit inp).seq = inp.length ∧
      List.Chain' (fun a b => a < b)
        ((runEmits keep readerInit inp).lines.map RxLine.seq) ∧
      (runEmits keep readerInit inp).lines.length ≤ keep ∧
      get_lines_since (runEmits keep readerInit inp) seq0 =
        ((runEmits keep readerInit inp).lines.filter
            (fun x => decide (seq0 < x.seq))).map RxLine.text := by
  intro keep inp seq0
  obtain ⟨r1, r2, _, r4, r5⟩ :=
    run_emits_spec keep inp readerInit (by simp [readerInit]) (by simp [readerInit])
  refine ⟨by simpa [readerInit] using r2, by simpa [readerInit] using r1, ?_,
    by simpa [readerInit] using r5, rfl⟩
  exact (List.chain'_map RxLine.seq).2 r4

/-- Against a reader that never received anything (fresh state, zero
`_last_rx_time`), the wait loop never completes: it runs to its timeout and
returns `(false, "", [])`. -/
theorem collect_loop_silent (timeout idleAfter : Nat) :
    ∀ (fuel i seq0 : Nat) (matched : Bool),
      collectLoop (fun _ => readerInit) seq0 timeout idleAfter none matched i fuel =
        (false, "", []) := by
  intro fuel
  induction fuel with
  | zero => intro i seq0 matched; rfl
  | succ n ih =>
    intro i seq0 matched
    rw [collectLoop]
    split
    · rfl
    · simpa [readerInit] using ih (i + 1) seq0 matched

/-- If the wait loop (no expect pattern) ever returns `ok = true`, the
reader it observed had a non-zero `_last_rx_time` at some tick. -/
theorem collect_loop_true_rx :
    ∀ (fuel : Nat) (rd : Nat → ReaderSt) (seq0 timeout idleAfter i : Nat)
      (matched : Bool),
      (collectLoop rd seq0 timeout idleAfter none matched i fuel).1 = true →
      ∃ j, (rd j).lastRx ≠ 0 := by
  intro fuel
  induction fuel with
  | zero =>
    intro rd seq0 timeout idleAfter i matched h
    simp [collectLoop] at h
  | succ n ih =>
    intro rd seq0 timeout idleAfter i matched h
    simp only [collectLoop] at h
    split at h
    · simp at h
    · split at h
      · rename_i hc
        refine ⟨i, ?_⟩
        simp only [Bool.and_eq_true, bne_iff_ne, ne_eq] at hc
        exact hc.2.1
      · exact ih rd seq0 timeout idleAfter (i + 1) _ h

/-- C10: `send_and_collect` with `expect = None` completes only when the
reader has received at least one line in its lifetime (the idle-window test
requires a non-zero `_last_rx_time`); against an endpoint that never sends
a byte the call runs its full timeout and returns `(false, "", [])` even
though the command was sent. -/
theorem idle_gate_requires_rx :
    (∀ timeout idleAfter : Nat,
        send_and_collect true none (fun _ => readerInit) timeout idleAfter none =
          .ok (false, "", [])) ∧
    (∀ (rd : Nat → ReaderSt) (seq0 timeout idleAfter i fuel : Nat) (matched : Bool),
        (collectLoop rd seq0 timeout idleAfter none matched i fuel).1 = true →
        ∃ j, (rd j).lastRx ≠ 0) := by
  constructor
  · intro timeout idleAfter
    show Except.ok (collectLoop (fun _ => readerInit) ((readerInit).seq)
      timeout idleAfter none false 0 (timeout + 1)) = _
    rw [collect_loop_silent]
  · intro rd seq0 timeout idleAfter i fuel matched h
    exact collect_loop_true_rx fuel rd seq0 timeout idleAfter i matched h

/-- Witness for the hypothesis of `idle_gate_requires_rx`: a reader that
received a line at tick 1 lets the loop complete, and indeed has a non-zero
last-receive time. -/
theorem idle_gate_requires_rx_witness :
    (collectLoop (fun _ => readerOneLine) 0 5 1 none false 0 6).1 = true ∧
    ∃ _j : Nat, readerOneLine.lastRx ≠ 0 :=
  ⟨by decide,
   idle_gate_requires_rx.2 (fun _ => readerOneLine) 0 5 1 0 6 false (by decide)⟩

/-- A `MATCHREGEX:`/`REGEX:` token whose body fails to compile parses to
nothing. -/
theorem parse_rule_regex_none (compile : String → Option (String → Bool))
    (t : String) (hre : isRegexToken t = true)
    (hc : compile (regexBody t) = none) :
    _parse_rule compile t = none := by
  simp only [isRegexToken, Bool.or_eq_true] at hre
  by_cases hm : strStarts (pyUpper (pyStrip t)) ("MATCHREGEX:") = true
  · simp only [_parse_rule, regexBody, hm, if_true, Bool.true_or] at hc ⊢
    split
    · rfl
    · rw [hc]
  · have hr : strStarts (pyUpper (pyStrip t)) ("REGEX:") = true := by
      rcases hre with h | h
      · exact absurd h hm
      · exact h
    rw [Bool.not_eq_true] at hm
    simp [_parse_rule, regexBody, hm, hr] at hc ⊢
    split
    · rename_i hrx
      rw [hc] at hrx
      simp at hrx
    · exact fun _ => rfl

/-- C9: a `MATCHREGEX:`/`REGEX:` token whose body does not compile is
dropped without aborting the parse: whether it sits in the priority group
or in the always-last group, the resulting rule list is the one obtained
from the same token lists with the malformed token removed. -/
theorem malformed_regex_token_dropped :
    ∀ (compile : String → Option (String → Bool)) (t : String)
      (l1 l2 other : List String),
      isRegexToken t = true →
      compile (regexBody t) = none →
      load_rules_from compile (l1 ++ t :: l2) other =
        load_rules_from compile (l1 ++ l2) other ∧
      load_rules_from compile other (l1 ++ t :: l2) =
        load_rules_from compile other (l1 ++ l2) := by
  intro compile t l1 l2 other hre hc
  have hp : _parse_rule compile t = none := parse_rule_regex_none compile t hre hc
  constructor <;>
    simp [load_rules_from, List.filterMap_append, List.filterMap_cons, hp]

/-- Witness for `malformed_regex_token_dropped`: dropping the unparsable
`MATCHREGEX:[` token from a concrete token list leaves the parsed rules
unchanged. -/
theorem malformed_regex_token_dropped_witness :
    load_rules_from (fun _ => none) (["END:END"] ++ ("MATCHREGEX:[") :: ["IN:ABC"])
        (["END:PASS"]) =
      load_rules_from (fun _ => none) (["END:END"] ++ ["IN:ABC"]) (["END:PASS"]) :=
  (malformed_regex_token_dropped (fun _ => none) ("MATCHREGEX:[") (["END:END"])
    (["IN:ABC"]) (["END:PASS"]) (by decide) rfl).1

/-- When `step()` neither broke on reload nor ended up in `Error` after
`_ensure_laser_open`, the laser handle is open on the configured port. -/
theorem ensured_port (cfg : BridgeCfg) (st0 : BState) (env : TickEnv)
    (hbr : ¬((!(stEnsured cfg st0 env).1 && cfg.breakOnReload) = true))
    (herr : ¬(((stEnsured cfg st0 env).2.mode == "Error") = true)) :
    (stEnsured cfg st0 env).2.serLaserPort = some env.comLaser := by
  by_cases hrl : (env.reloadChanged && cfg.breakOnReload) = true
  · exfalso
    apply hbr
    simp only [stEnsured, ensureLaserOpen, hrl, if_true]
    exact (Bool.and_eq_true _ _).mp hrl |>.2 ▸ rfl
  · by_cases hmatch :
      ((stNorm st0).serLaserPort == some env.comLaser) = true
    · simp only [stEnsured, ensureLaserOpen, hrl, if_false, hmatch, if_true]
      exact eq_of_beq hmatch
    · by_cases hopen : env.openOk = true
      · simp [stEnsured, ensureLaserOpen, hrl, hmatch, hopen]
      · exfalso
        apply herr
        simp [stEnsured, ensureLaserOpen, hrl, hmatch, hopen] at herr ⊢

/-- If `step()` obtained an SFC response, the step consists of accepting a
laser frame and running the SFC phase on it; the laser handle is open on
the configured port at that moment. -/
theorem step_eq_of_sfc (cfg : BridgeCfg) (st0 : BState) (env : TickEnv)
    (r : String) (h : stepSfcResponse cfg st0 env = some r) :
    ∃ frame,
      (frameRes cfg st0 env).1 = some frame ∧
      env.faultSfc = none ∧ env.sfcOk = true ∧ r = env.sfcResp ∧
      (stTrig cfg st0 env frame).serLaserPort = some env.comLaser ∧
      LaserSfcBridge.step cfg st0 env = sfcPhase env (stTrig cfg st0 env frame) frame := by
  unfold stepSfcResponse at h
  unfold LaserSfcBridge.step
  split at h
  · exact absurd h (by simp)
  · rename_i hbr
    rw [if_neg hbr]
    split at h
    · exact absurd h (by simp)
    · rename_i herr
      rw [if_neg herr]
      have hport := ensured_port cfg st0 env hbr herr
      split at h
      · exact absurd h (by simp)
      · split at h
        · exact absurd h (by simp)
        · rename_i hfr
          split at h
          · exact absurd h (by simp)
          · rename_i hchunk
            rw [if_neg hchunk]
            split at h
            · exact absurd h (by simp)
            · rename_i frame hframe
              split at h
              · exact absurd h (by simp)
              · rename_i hsfc
                split at h
                · rename_i hok
                  refine ⟨frame, hframe, hsfc, hok, ?_, ?_, rfl⟩
                  · exact (Option.some.injEq _ _).mp h.symm
                  · simp [stTrig, stAsm, hport]
                · exact absurd h (by simp)

/-- C1: whenever `step()` obtained an SFC response matching `PASSED=[01]`
(case-insensitive, anywhere in the text), it returns event `"HOLD"`, writes
nothing to the laser endpoint, deactivates the testing chain, and leaves
the bridge in mode `"Listening"`. -/
theorem hold_point_step :
    ∀ (cfg : BridgeCfg) (st0 : BState) (env : TickEnv) (r : String),
      stepSfcResponse cfg st0 env = some r →
      is_hold_point r = true →
      (LaserSfcBridge.step cfg st0 env).event = "HOLD" ∧
      (LaserSfcBridge.step cfg st0 env).laserWrites = [] ∧
      (LaserSfcBridge.step cfg st0 env).st.chainActive = false ∧
      (LaserSfcBridge.step cfg st0 env).st.mode = "Listening" := by
  intro cfg st0 env r h hh
  obtain ⟨frame, _, hsfc, hok, hr, _, hstep⟩ := step_eq_of_sfc cfg st0 env r h
  rw [hstep]
  subst hr
  simp [sfcPhase, hsfc, hok, hh]

/-- Witness for `hold_point_step`: the spec's hold-point scenario, laser
frame `MO1,NEEDPSN04` answered by `MO1,PF2AS04TE,PASSED=1`. -/
theorem hold_point_step_witness :
    (LaserSfcBridge.step ⟨false⟩ stListen envHold).event = "HOLD" ∧
    (LaserSfcBridge.step ⟨false⟩ stListen envHold).laserWrites = [] ∧
    (LaserSfcBridge.step ⟨false⟩ stListen envHold).st.chainActive = false ∧
    (LaserSfcBridge.step ⟨false⟩ stListen envHold).st.mode = "Listening" :=
  hold_point_step ⟨false⟩ stListen envHold ("MO1,PF2AS04TE,PASSED=1")
    (by decide) (by decide)

/-- C3: whenever `step()` obtained an SFC response with no `PASSED=[01]`
match (and the write-back raises nothing), it emits the result callback
with the inferred status, writes back exactly the response with a trailing
CRLF enforced, returns event `"SFC_OK"`, and stays in mode `"Testing"`. -/
theorem pass_through_step :
    ∀ (cfg : BridgeCfg) (st0 : BState) (env : TickEnv) (r : String),
      stepSfcResponse cfg st0 env = some r →
      is_hold_point r = false →
      env.faultWrite = none →
      (LaserSfcBridge.step cfg st0 env).event = "SFC_OK" ∧
      (LaserSfcBridge.step cfg st0 env).laserWrites = [crlfPayload r] ∧
      (LaserSfcBridge.step cfg st0 env).st.mode = "Testing" ∧
      (LaserSfcBridge.step cfg st0 env).results =
        [((infer_status r).getD ("UNKNOWN"),
          (LaserSfcBridge.step cfg st0 env).st.lastLaserReq, r)] := by
  intro cfg st0 env r h hh hw
  obtain ⟨frame, _, hsfc, hok, hr, _, hstep⟩ := step_eq_of_sfc cfg st0 env r h
  rw [hstep]
  subst hr
  simp [sfcPhase, hsfc, hok, hh, hw, stTrig]

/-- Witness for `pass_through_step`: the spec's pass-through scenario, SFC
answering `MO1,SOME,OTHER`. -/
theorem pass_through_step_witness :
    (LaserSfcBridge.step ⟨false⟩ stListen envPass).event = "SFC_OK" ∧
    (LaserSfcBridge.step ⟨false⟩ stListen envPass).laserWrites =
      [crlfPayload ("MO1,SOME,OTHER")] ∧
    (LaserSfcBridge.step ⟨false⟩ stListen envPass).st.mode = "Testing" ∧
    (LaserSfcBridge.step ⟨false⟩ stListen envPass).results =
      [((infer_status ("MO1,SOME,OTHER")).getD ("UNKNOWN"),
        (LaserSfcBridge.step ⟨false⟩ stListen envPass).st.lastLaserReq,
        "MO1,SOME,OTHER")] :=
  pass_through_step ⟨false⟩ stListen envPass ("MO1,SOME,OTHER")
    (by decide) (by decide) (by decide)

/-- Once the bridge is in `Error` with its handle open on the configured
port (and no reload-break is pending), a tick returns `"ERROR"` again: the
loop keeps running instead of terminating. -/
theorem step_error_sticky (cfg : BridgeCfg) (st : BState) (env : TickEnv)
    (hbr : (env.reloadChanged && cfg.breakOnReload) = false)
    (hmode : st.mode = "Error")
    (hport : st.serLaserPort = some env.comLaser) :
    (LaserSfcBridge.step cfg st env).event = "ERROR" := by
  unfold LaserSfcBridge.step
  have h1 : stNorm st = st := by simp [stNorm, hmode]
  have h2 : stEnsured cfg st env = (true, { st with curLaserPort := env.comLaser }) := by
    simp [stEnsured, ensureLaserOpen, h1, hbr, hport]
  rw [h2]
  simp [hmode]

/-- Under the gate conditions of `step()` (no reload-break taken), the
reload condition itself is false. -/
theorem reload_false_of_not_break (cfg : BridgeCfg) (st0 : BState) (env : TickEnv)
    (hbr : ¬((!(stEnsured cfg st0 env).1 && cfg.breakOnReload) = true)) :
    (env.reloadChanged && cfg.breakOnReload) = false := by
  rw [Bool.eq_false_iff]
  intro hrl
  apply hbr
  have h1 : (stEnsured cfg st0 env).1 = false := by
    simp [stEnsured, ensureLaserOpen, hrl]
  rw [h1]
  simp [(Bool.and_eq_true _ _).mp hrl |>.2]

/-- C5 (amended): for every exception raised inside a tick — at the laser
read, inside the SFC transaction, or at the laser write-back — the bridge
transitions to mode `"Error"`, records the exception text in `lastError`,
and `step()` returns `"ERROR"` instead of terminating; the exception
handler leaves the laser handle open (it is not closed), and the next tick
runs to completion again, returning `"ERROR"`. -/
theorem step_fault_recovery :
    ∀ (cfg : BridgeCfg) (st0 : BState) (env : TickEnv) (e : String),
      stepRaised cfg st0 env = some e →
      (LaserSfcBridge.step cfg st0 env).event = "ERROR" ∧
      (LaserSfcBridge.step cfg st0 env).st.mode = "Error" ∧
      (LaserSfcBridge.step cfg st0 env).st.lastError = e ∧
      (LaserSfcBridge.step cfg st0 env).st.serLaserPort = some env.comLaser ∧
      (LaserSfcBridge.step cfg
        (LaserSfcBridge.step cfg st0 env).st env).event = "ERROR" := by
  intro cfg st0 env e h
  unfold stepRaised at h
  split at h
  · exact absurd h (by simp)
  · rename_i hbr
    have hbr2 := reload_false_of_not_break cfg st0 env hbr
    split at h
    · exact absurd h (by simp)
    · rename_i herr
      have hport := ensured_port cfg st0 env hbr herr
      split at h
      · exact absurd h (by simp)
      · split at h
        · rename_i e0 hfr
          have he : e0 = e := by simpa using h
          subst he
          have hout : LaserSfcBridge.step cfg st0 env =
              raiseOut (stEnsured cfg st0 env).2 e0 [] := by
            unfold LaserSfcBridge.step
            rw [if_neg hbr, if_neg herr, hport, hfr]
          rw [hout]
          refine ⟨rfl, rfl, rfl, by simpa [raiseOut] using hport, ?_⟩
          refine step_error_sticky cfg _ env hbr2 ?_ ?_
          · rfl
          · simpa [raiseOut] using hport
        · rename_i hfr
          split at h
          · exact absurd h (by simp)
          · rename_i hchunk
            split at h
            · exact absurd h (by simp)
            · rename_i frame hframe
              have hp2 : (stTrig cfg st0 env frame).serLaserPort =
                  some env.comLaser := by
                simp [stTrig, stAsm, hport]
              have hpre : LaserSfcBridge.step cfg st0 env =
                  sfcPhase env (stTrig cfg st0 env frame) frame := by
                unfold LaserSfcBridge.step
                rw [if_neg hbr, if_neg herr, hport, hfr, if_neg hchunk, hframe]
              split at h
              · rename_i e0 hsf
                have he : e0 = e := by simpa using h
                subst he
                have hout : LaserSfcBridge.step cfg st0 env =
                    raiseOut (stTrig cfg st0 env frame) e0 [] := by
                  rw [hpre]
                  simp [sfcPhase, hsf]
                rw [hout]
                refine ⟨rfl, rfl, rfl, by simpa [raiseOut] using hp2, ?_⟩
                refine step_error_sticky cfg _ env hbr2 ?_ ?_
                · rfl
                · simpa [raiseOut] using hp2
              · rename_i hsf
                split at h
                · rename_i hok
                  split at h
                  · exact absurd h (by simp)
                  · rename_i hhold
                    split at h
                    · rename_i e0 hwf
                      have he : e0 = e := by simpa using h
                      subst he
                      have hout : LaserSfcBridge.step cfg st0 env =
                          raiseOut { stTrig cfg st0 env frame with
                                       lastSfcResp := env.sfcResp,
                                       lastStatus :=
                                         (infer_status env.sfcResp).getD ("UNKNOWN") }
                            e0 [((infer_status env.sfcResp).getD ("UNKNOWN"),
                                 frame, env.sfcResp)] := by
                        rw [hpre]
                        simp [sfcPhase, hsf, hok, hhold, hwf]
                      rw [hout]
                      refine ⟨rfl, rfl, rfl, by simpa [raiseOut] using hp2, ?_⟩
                      refine step_error_sticky cfg _ env hbr2 ?_ ?_
                      · rfl
                      · simpa [raiseOut] using hp2
                    · exact absurd h (by simp)
                · exact absurd h (by simp)

/-- Witness for `step_fault_recovery`, exercising two different raise
points: the write-back raising `"boom"` and the laser read raising
`"readboom"`. -/
theorem step_fault_recovery_witness :
    ((LaserSfcBridge.step ⟨false⟩ stListen envWriteFault).event = "ERROR" ∧
     (LaserSfcBridge.step ⟨false⟩ stListen envWriteFault).st.mode = "Error" ∧
     (LaserSfcBridge.step ⟨false⟩ stListen envWriteFault).st.lastError = "boom" ∧
     (LaserSfcBridge.step ⟨false⟩ stListen envWriteFault).st.serLaserPort =
       some ("COM3") ∧
     (LaserSfcBridge.step ⟨false⟩
       (LaserSfcBridge.step ⟨false⟩ stListen envWriteFault).st envWriteFault).event =
         "ERROR") ∧
    ((LaserSfcBridge.step ⟨false⟩ stListen envReadFault).event = "ERROR" ∧
     (LaserSfcBridge.step ⟨false⟩ stListen envReadFault).st.mode = "Error" ∧
     (LaserSfcBridge.step ⟨false⟩ stListen envReadFault).st.lastError = "readboom" ∧
     (LaserSfcBridge.step ⟨false⟩ stListen envReadFault).st.serLaserPort =
       some ("COM3")) :=
  ⟨step_fault_recovery ⟨false⟩ stListen envWriteFault ("boom") (by decide),
   (fun hr => ⟨hr.1, hr.2.1, hr.2.2.1, hr.2.2.2.1⟩)
     (step_fault_recovery ⟨false⟩ stListen envReadFault ("readboom") (by decide))⟩

/-- C5 counterexample: on a tick whose laser write-back raises, the bridge
does go to `Error` and return `"ERROR"`, but its serial handle is *not*
closed — refuting the claim that every exception defensively closes the
laser handle. -/
theorem step_exception_keeps_handle_open :
    (LaserSfcBridge.step ⟨false⟩ stListen envWriteFault).event = "ERROR" ∧
    (LaserSfcBridge.step ⟨false⟩ stListen envWriteFault).st.mode = "Error" ∧
    ¬((LaserSfcBridge.step ⟨false⟩ stListen envWriteFault).st.serLaserPort = none) :=
  ⟨by decide, by decide, by decide⟩

/-- C4 counterexample: `send_and_collect` against a reader whose port never
became ready raises (`send`'s `RuntimeError` propagates) instead of
returning a `(ok, best, lines)` triple. -/
theorem send_and_collect_not_ready_raises :
    send_and_collect false none (fun _ => readerInit) 5 1 none =
      .error ("SFCComReader: port not ready") := rfl

/-- C4 (amended): `step()` always returns normally with one of its event
codes, whatever the environment and injected I/O faults; `send_and_collect`
returns a triple whenever the port is ready and the write does not raise
(but propagates `send`'s exceptions otherwise, see
`send_and_collect_not_ready_raises`). -/
theorem step_total_collect_ok_when_ready :
    (∀ (cfg : BridgeCfg) (st : BState) (env : TickEnv),
        stepEventCodes.contains (LaserSfcBridge.step cfg st env).event = true) ∧
    (∀ (rd : Nat → ReaderSt) (timeout idleAfter : Nat)
        (expect : Option (String → Bool)),
        exceptOk (send_and_collect true none rd timeout idleAfter expect) = true) := by
  constructor
  · intro cfg st env
    unfold LaserSfcBridge.step sfcPhase idleOut raiseOut
    repeat' split
    all_goals rfl
  · intro rd timeout idleAfter expect
    rfl
